import Mathlib

/-!
Verification development for the `pubmed` package of the `8o8/articles`
repository: the paginated result-set acquisition protocol.

The embedding follows the Go source:
* `NumSets` models `int(math.Ceil(float64(Total) / float64(MaxSetSize)))`,
  including the IEEE-754 binary64 semantics of the two integer-to-float
  conversions and of the division (round to nearest, ties to even), and the
  exact ceiling of the resulting binary float.  The final `int(...)`
  conversion is exact for every value the claims exercise (all are below
  2^63); division by a zero page size (Go would produce NaN/Inf, whose
  conversion to int is implementation-defined) is outside every theorem's
  hypotheses.
* `ResultsCount` / `ResultsSetIDs` model the two decoders.  A raw payload is
  `Option Json`: `Option.none` stands for bytes that are not well-formed
  JSON (where `json.Unmarshal` reports a syntax error), `Option.some j` for
  a parsed document.  Decoding into the Go target structs follows
  `encoding/json`: unknown keys are skipped, key matching is
  case-insensitive (ASCII fold, as in the relevant key names), later
  duplicate keys overwrite earlier ones, `null` leaves a field untouched,
  a mistyped value records an error while decoding continues, and an absent
  field keeps its zero value.
* `Query`, `QueryResultTotal`, `QueryResultSet` model the three methods of
  `Search`.  The HTTP transport is abstracted as a `Fetch` oracle from the
  request parameters the code puts on the URL to a transport failure or a
  payload, and each operation also returns the list of requests it issued,
  so that sequencing claims are statable.  The `fmt.Println` loop at the end
  of `Query` performs output only and is not modeled.
-/

set_option maxRecDepth 40000

namespace Pubmed

/-! ### Float64 model for `NumSets` -/

/-- Floor of log base 2, by fuel-bounded binary recursion (the fuel 320 covers
every value reachable from 64-bit program integers with room to spare). -/
def log2F : Nat → Nat → Nat
  | 0, _ => 0
  | fuel + 1, n => if 2 ≤ n then log2F fuel (n / 2) + 1 else 0

/-- Round `n / d` to the nearest integer, ties to even. -/
def roundDiv2NE (n d : Nat) : Nat :=
  let q := n / d
  let r := n % d
  if 2 * r < d then q
  else if d < 2 * r then q + 1
  else if q % 2 = 0 then q else q + 1

/-- Decide `b * 2^e ≤ a` for an integer exponent `e`. -/
def pow2le (b a : Nat) (e : Int) : Bool :=
  if 0 ≤ e then decide (b * 2 ^ e.toNat ≤ a) else decide (b ≤ a * 2 ^ (-e).toNat)

/-- Round the positive rational `a / b` to 53 significant bits, nearest, ties
to even: returns `(m, t)` with value `m * 2^t`, `m` the rounded significand
scaled to `[2^52, 2^53]`.  This is the IEEE-754 binary64 rounding applied by
Go's int-to-float64 conversions and float64 division. -/
def roundF (a b : Nat) : Nat × Int :=
  let e0 : Int := (log2F 320 a : Int) - (log2F 320 b : Int)
  let e : Int := if pow2le b a e0 then e0 else e0 - 1
  let s : Int := 52 - e
  (roundDiv2NE (a * 2 ^ s.toNat) (b * 2 ^ (-s).toNat), e - 52)

/-- A binary64 value `(-1)^sign * mag * 2^exp` (finite; zero as `mag = 0`). -/
structure Float64 where
  sign : Bool
  mag : Nat
  exp : Int

/-- Go's `float64(t)` conversion of an integer (round to nearest, ties to
even; exact below 2^53). -/
def floatOfInt (t : Int) : Float64 :=
  if t = 0 then ⟨false, 0, 0⟩
  else
    let r := roundF t.natAbs 1
    ⟨decide (t < 0), r.1, r.2⟩

/-- IEEE-754 binary64 division (correctly rounded, nearest, ties to even).
Division by a zero float is not modeled (see the header note). -/
def Float64.div (x y : Float64) : Float64 :=
  if x.mag = 0 then ⟨false, 0, 0⟩
  else
    let d : Int := x.exp - y.exp
    let r := roundF (x.mag * 2 ^ d.toNat) (y.mag * 2 ^ (-d).toNat)
    ⟨xor x.sign y.sign, r.1, r.2⟩

/-- Go's `int(math.Ceil(x))`: exact ceiling of the binary float, truncated
conversion being the identity on the resulting integral value (exact for
magnitudes below 2^63, which covers every theorem in this file). -/
def ceilToInt (x : Float64) : Int :=
  if x.mag = 0 then 0
  else
    let k := 2 ^ (-x.exp).toNat
    let mult := 2 ^ x.exp.toNat
    if x.sign then - Int.ofNat (x.mag / k * mult)
    else Int.ofNat ((x.mag + k - 1) / k * mult)

/-- `func (ps *Search) NumSets() int`:
`int(math.Ceil(float64(ps.Result.Total) / float64(ps.Result.MaxSetSize)))`,
as a function of the two fields it reads. -/
def NumSets (total maxSetSize : Int) : Int :=
  ceilToInt (Float64.div (floatOfInt total) (floatOfInt maxSetSize))

/-- Exact integer ceiling `ceil(a / b)` (the quantity the specification names,
for comparison against `NumSets`). -/
def ceilNat (a b : Nat) : Nat :=
  (a + b - 1) / b

/-! ### JSON payloads and the two decoders -/

/-- Parsed JSON document.  Numeric values only ever matter through their type
here (they trigger decode type errors), so they are carried as integers. -/
inductive Json where
  | null
  | bool (b : Bool)
  | num (n : Int)
  | str (s : String)
  | arr (elems : List Json)
  | obj (fields : List (String × Json))

/-- ASCII-folded key, for `encoding/json`'s case-insensitive field match. -/
def foldKey (s : String) : List Char :=
  s.data.map Char.toLower

/-- Does object key `k` select the struct field tagged `target`? -/
def matchKey (k target : String) : Bool :=
  decide (foldKey k = foldKey target)

/-- Decode one `esearchresult` value into the inner `{ Count string }` struct,
merging into the current `(count, erred)` state as `encoding/json` does. -/
def decodeCountInner (cur : String × Bool) (v : Json) : String × Bool :=
  match v with
  | Json.null => cur
  | Json.obj gs =>
      gs.foldl
        (fun acc kv =>
          if matchKey kv.1 "count" then
            match kv.2 with
            | Json.str s => (s, acc.2)
            | Json.null => acc
            | _ => (acc.1, true)
          else acc)
        cur
  | _ => (cur.1, true)

/-- `json.Unmarshal` of a document into
`struct { Result struct { Count string } }`: returns the decoded count string
and whether a decode error occurred. -/
def decodeCountStruct (j : Json) : String × Bool :=
  match j with
  | Json.null => ("", false)
  | Json.obj fs =>
      fs.foldl
        (fun acc kv =>
          if matchKey kv.1 "esearchresult" then decodeCountInner acc kv.2 else acc)
        ("", false)
  | _ => ("", true)

/-- String content of one identifier-list element (zero value on mistype). -/
def decodeElem (e : Json) : String :=
  match e with
  | Json.str s => s
  | _ => ""

/-- Does one identifier-list element cause a decode type error? -/
def elemBad (e : Json) : Bool :=
  match e with
  | Json.str _ => false
  | Json.null => false
  | _ => true

/-- Decode one `esearchresult` value into the inner `{ IDList []string }`
struct, merging into the current `(list, erred)` state. -/
def decodeIDsInner (cur : List String × Bool) (v : Json) : List String × Bool :=
  match v with
  | Json.null => cur
  | Json.obj gs =>
      gs.foldl
        (fun acc kv =>
          if matchKey kv.1 "idlist" then
            match kv.2 with
            | Json.arr xs => (xs.map decodeElem, acc.2 || xs.any elemBad)
            | Json.null => acc
            | _ => (acc.1, true)
          else acc)
        cur
  | _ => (cur.1, true)

/-- `json.Unmarshal` of a document into
`struct { Result struct { IDList []string } }`. -/
def decodeIDsStruct (j : Json) : List String × Bool :=
  match j with
  | Json.null => ([], false)
  | Json.obj fs =>
      fs.foldl
        (fun acc kv =>
          if matchKey kv.1 "esearchresult" then decodeIDsInner acc kv.2 else acc)
        ([], false)
  | _ => ([], true)

/-- Error kinds of the pubmed package, after `errors.Wrap` contexts are
stripped to the stage that failed. -/
inductive GoErr where
  | transport
  | unmarshal
  | atoi
  deriving DecidableEq

/-- `strconv.Atoi`: optional single sign, nonempty ASCII digits, 64-bit signed
range; `Option.none` is a non-nil error (the code then returns count 0). -/
def parseDigitsAux : List Char → Nat → Option Nat
  | [], acc => Option.some acc
  | c :: cs, acc =>
      if c.isDigit then parseDigitsAux cs (acc * 10 + (c.toNat - 48)) else Option.none

/-- Digits-only parse of a nonempty digit string. -/
def parseDigits : List Char → Option Nat
  | [] => Option.none
  | l => parseDigitsAux l 0

/-- `strconv.Atoi` on a 64-bit platform. -/
def atoi (s : String) : Option Int :=
  match s.data with
  | '+' :: rest =>
      (parseDigits rest).bind fun n =>
        if n ≤ 2 ^ 63 - 1 then Option.some (n : Int) else Option.none
  | '-' :: rest =>
      (parseDigits rest).bind fun n =>
        if n ≤ 2 ^ 63 then Option.some (-(n : Int)) else Option.none
  | l =>
      (parseDigits l).bind fun n =>
        if n ≤ 2 ^ 63 - 1 then Option.some (n : Int) else Option.none

/-- `func ResultsCount(responseBody []byte) (int, error)`: unmarshal the
count struct, then `strconv.Atoi` the count string; returns 0 alongside any
error. -/
def ResultsCount (p : Option Json) : Int × Option GoErr :=
  match p with
  | Option.none => (0, Option.some GoErr.unmarshal)
  | Option.some j =>
      let d := decodeCountStruct j
      if d.2 then (0, Option.some GoErr.unmarshal)
      else
        match atoi d.1 with
        | Option.none => (0, Option.some GoErr.atoi)
        | Option.some v => (v, Option.none)

/-- `func ResultsSetIDs(responseBody []byte) ([]string, error)`: unmarshal the
id-list struct; returns the empty list alongside any error. -/
def ResultsSetIDs (p : Option Json) : List String × Option GoErr :=
  match p with
  | Option.none => ([], Option.some GoErr.unmarshal)
  | Option.some j =>
      let d := decodeIDsStruct j
      if d.2 then ([], Option.some GoErr.unmarshal)
      else (d.1, Option.none)

/-! ### The Search state and its operations -/

/-- `type Set struct { IDs []string }`. -/
structure Set where
  IDs : List String
  deriving DecidableEq

/-- `type Result struct { Total int; MaxSetSize int; Sets []Set }`. -/
structure Result where
  Total : Int
  MaxSetSize : Int
  Sets : List Set
  deriving DecidableEq

/-- `type Search struct { Name string; BackDays int; Term string; Result Result }`. -/
structure Search where
  Name : String
  BackDays : Int
  Term : String
  Result : Result
  deriving DecidableEq

/-- `func NewSearch(query string) *Search`: defaults Name "Pubmed Search",
BackDays 7, MaxSetSize 1000; Total and Sets zero-valued. -/
def NewSearch (query : String) : Search :=
  ⟨"Pubmed Search", 7, query, ⟨0, 1000, []⟩⟩

/-- Parameters the code places on a request URL: the count request carries
the recency window and term; a page request additionally carries the start
offset (`retstart`) and the page size (`retmax`). -/
inductive Request where
  | count (backDays : Int) (term : String)
  | page (backDays : Int) (start : Int) (retmax : Int) (term : String)
  deriving DecidableEq

/-- The abstract transport: `ResponseBody` as an oracle from request
parameters to a transport failure or a raw payload. -/
abbrev Fetch := Request → Except Unit (Option Json)

/-- `func (ps *Search) QueryResultTotal() error`.  Note the Go multiple
assignment `ps.Result.Total, err = ResultsCount(xb)`: Total is assigned the
returned count (0 on decode failure) whenever the body was fetched.  Also
returns the requests issued. -/
def QueryResultTotal (fetch : Fetch) (ps : Search) : Search × Option GoErr × List Request :=
  let req := Request.count ps.BackDays ps.Term
  match fetch req with
  | Except.error _ => (ps, Option.some GoErr.transport, [req])
  | Except.ok body =>
      let rc := ResultsCount body
      ({ps with Result := {ps.Result with Total := rc.1}}, rc.2, [req])

/-- Fetch-and-decode of page `i`: `startIndex = setIndex * MaxSetSize`, then
`ResponseBody` and `ResultsSetIDs`.  Reads only BackDays, MaxSetSize, Term. -/
def PageFetch (fetch : Fetch) (backDays maxSetSize : Int) (term : String) (i : Nat) :
    Set × Option GoErr :=
  match fetch (Request.page backDays ((i : Int) * maxSetSize) maxSetSize term) with
  | Except.error _ => (⟨[]⟩, Option.some GoErr.transport)
  | Except.ok body =>
      let rs := ResultsSetIDs body
      (⟨rs.1⟩, rs.2)

/-- `func (ps *Search) QueryResultSet(setIndex int) (Set, error)`: returns the
(unchanged) receiver, the decoded set with its error, and the request issued. -/
def QueryResultSet (fetch : Fetch) (ps : Search) (setIndex : Nat) :
    Search × (Set × Option GoErr) × Request :=
  (ps, PageFetch fetch ps.BackDays ps.Result.MaxSetSize ps.Term setIndex,
    Request.page ps.BackDays ((setIndex : Int) * ps.Result.MaxSetSize)
      ps.Result.MaxSetSize ps.Term)

/-- The page loop of `Query`: `for i := 0; i < c; i++`, appending each
successful set to `ps.Result.Sets` and returning on the first failure. -/
def RunPages (fetch : Fetch) : List Nat → Search → Search × Option GoErr × List Request
  | [], ps => (ps, Option.none, [])
  | i :: rest, ps =>
      let q := QueryResultSet fetch ps i
      match q.2.1.2 with
      | Option.some e => (q.1, Option.some e, [q.2.2])
      | Option.none =>
          let ps' :=
            {q.1 with Result := {q.1.Result with Sets := q.1.Result.Sets ++ [q.2.1.1]}}
          let r := RunPages fetch rest ps'
          (r.1, r.2.1, q.2.2 :: r.2.2)

/-- `func (ps *Search) Query() error`: drive `QueryResultTotal`, compute
`NumSets`, loop the pages.  The trailing `fmt.Println` loop is output only. -/
def Query (fetch : Fetch) (ps : Search) : Search × Option GoErr × List Request :=
  let r := QueryResultTotal fetch ps
  match r.2.1 with
  | Option.some e => (r.1, Option.some e, r.2.2)
  | Option.none =>
      let c := NumSets r.1.Result.Total r.1.Result.MaxSetSize
      let s := RunPages fetch (List.range c.toNat) r.1
      (s.1, s.2.1, r.2.2 ++ s.2.2)

/-- The decoded pages for a list of page indices (statement abbreviation). -/
def PageSets (fetch : Fetch) (backDays maxSetSize : Int) (term : String)
    (idxs : List Nat) : List Set :=
  idxs.map (fun i => (PageFetch fetch backDays maxSetSize term i).1)

/-- The page requests for a list of page indices (statement abbreviation). -/
def PageReqs (backDays maxSetSize : Int) (term : String) (idxs : List Nat) : List Request :=
  idxs.map (fun i => Request.page backDays ((i : Int) * maxSetSize) maxSetSize term)

/-! ### Concrete fixtures used by witnesses and counterexamples -/

/-- Payload `{"esearchresult":{"count": s}}`. -/
def cntPayload (s : String) : Json :=
  Json.obj [("esearchresult", Json.obj [("count", Json.str s)])]

/-- Payload `{"esearchresult":{"count": c, "idlist": xs}}`. -/
def idsPayload (c : String) (xs : List String) : Json :=
  Json.obj
    [("esearchresult",
      Json.obj [("count", Json.str c), ("idlist", Json.arr (xs.map Json.str))])]

/-- Service double: total 3, page size 2; page at offset 0 returns two ids,
any later page one id. -/
def fetchW : Fetch := fun r =>
  match r with
  | Request.count _ _ => Except.ok (Option.some (cntPayload "3"))
  | Request.page _ s _ _ =>
      if s = 0 then Except.ok (Option.some (idsPayload "3" ["a", "b"]))
      else Except.ok (Option.some (idsPayload "3" ["c"]))

/-- Fresh search with page size 2 against `fetchW`. -/
def sW : Search :=
  ⟨"Pubmed Search", 7, "t", ⟨0, 2, []⟩⟩

/-- Service double: total 3, page size 1; page 0 succeeds, page 1 fails with
a transport error. -/
def fetch7 : Fetch := fun r =>
  match r with
  | Request.count _ _ => Except.ok (Option.some (cntPayload "3"))
  | Request.page _ s _ _ =>
      if s = 0 then Except.ok (Option.some (idsPayload "3" ["a"])) else Except.error ()

/-- Fresh search with page size 1 against `fetch7`. -/
def s7 : Search :=
  ⟨"Pubmed Search", 7, "t", ⟨0, 1, []⟩⟩

/-- Service double whose count query reports zero matches. -/
def fetch0 : Fetch := fun _ => Except.ok (Option.some (cntPayload "0"))

/-- Fresh default search. -/
def s0 : Search :=
  NewSearch "t"

/-- Service double returning a well-formed payload of the wrong shape
(a bare number), so that decoding fails. -/
def badFetch : Fetch := fun _ => Except.ok (Option.some (Json.num 1))

/-- A search that already holds a successfully decoded total (42) and one
fetched page, as after a first successful `QueryResultTotal` and paging. -/
def ps42 : Search :=
  ⟨"Pubmed Search", 7, "t", ⟨42, 1000, [⟨["a"]⟩]⟩⟩

/-! ### Helper lemmas -/

lemma newSearch_sets (q : String) : (NewSearch q).Result.Sets = [] := rfl

lemma numSets_zero (m : Int) : NumSets 0 m = 0 := rfl

lemma floatOfInt_sign_false {t : Int} (h : 0 ≤ t) : (floatOfInt t).sign = false := by
  unfold floatOfInt
  by_cases h0 : t = 0
  · simp [h0]
  · simp [h0, decide_eq_false (not_lt.mpr h)]

lemma numSets_nonneg {t m : Int} (ht : 0 ≤ t) (hm : 0 ≤ m) : 0 ≤ NumSets t m := by
  have hs : (Float64.div (floatOfInt t) (floatOfInt m)).sign = false := by
    unfold Float64.div
    by_cases h1 : (floatOfInt t).mag = 0
    · simp [h1]
    · simp [h1, floatOfInt_sign_false ht, floatOfInt_sign_false hm]
  unfold NumSets ceilToInt
  split_ifs with h2 h3
  · exact le_refl 0
  · rw [hs] at h3; cases h3
  · exact Int.ofNat_nonneg _

lemma qrt_err (f : Fetch) (ps : Search) (e : Unit)
    (h : f (Request.count ps.BackDays ps.Term) = Except.error e) :
    QueryResultTotal f ps =
      (ps, Option.some GoErr.transport, [Request.count ps.BackDays ps.Term]) := by
  simp [QueryResultTotal, h]

lemma qrt_ok (f : Fetch) (ps : Search) (body : Option Json)
    (h : f (Request.count ps.BackDays ps.Term) = Except.ok body) :
    QueryResultTotal f ps =
      ({ps with Result := {ps.Result with Total := (ResultsCount body).1}},
        (ResultsCount body).2, [Request.count ps.BackDays ps.Term]) := by
  simp [QueryResultTotal, h]

lemma qrt_sets (f : Fetch) (ps : Search) :
    (QueryResultTotal f ps).1.Result.Sets = ps.Result.Sets := by
  cases h : f (Request.count ps.BackDays ps.Term) with
  | error e => rw [qrt_err f ps e h]
  | ok body => rw [qrt_ok f ps body h]

lemma runPages_ok (f : Fetch) :
    ∀ (idxs : List Nat) (nm : String) (bd : Int) (tm : String) (tot mss : Int)
      (sets : List Set),
      (∀ i ∈ idxs, (PageFetch f bd mss tm i).2 = Option.none) →
      RunPages f idxs ⟨nm, bd, tm, ⟨tot, mss, sets⟩⟩ =
        (⟨nm, bd, tm, ⟨tot, mss, sets ++ PageSets f bd mss tm idxs⟩⟩,
          Option.none, PageReqs bd mss tm idxs) := by
  intro idxs
  induction idxs with
  | nil => intro nm bd tm tot mss sets _; simp [RunPages, PageSets, PageReqs]
  | cons i rest ih =>
      intro nm bd tm tot mss sets h
      have hi : (PageFetch f bd mss tm i).2 = Option.none :=
        h i (List.mem_cons_self i rest)
      have hrest : ∀ j ∈ rest, (PageFetch f bd mss tm j).2 = Option.none :=
        fun j hj => h j (List.mem_cons_of_mem i hj)
      have step := ih nm bd tm tot mss (sets ++ [(PageFetch f bd mss tm i).1]) hrest
      simp only [RunPages, QueryResultSet, hi]
      rw [step]
      simp [PageSets, PageReqs]

lemma runPages_none (f : Fetch) :
    ∀ (idxs : List Nat) (nm : String) (bd : Int) (tm : String) (tot mss : Int)
      (sets : List Set),
      (RunPages f idxs ⟨nm, bd, tm, ⟨tot, mss, sets⟩⟩).2.1 = Option.none →
      ∀ i ∈ idxs, (PageFetch f bd mss tm i).2 = Option.none := by
  intro idxs
  induction idxs with
  | nil => intro nm bd tm tot mss sets _ i hi; cases hi
  | cons i rest ih =>
      intro nm bd tm tot mss sets h j hj
      cases hpf : (PageFetch f bd mss tm i).2 with
      | some e => simp [RunPages, QueryResultSet, hpf] at h
      | none =>
          rcases List.mem_cons.mp hj with hji | hjr
          · rw [hji]; exact hpf
          · have h' :
                (RunPages f rest
                  ⟨nm, bd, tm, ⟨tot, mss, sets ++ [(PageFetch f bd mss tm i).1]⟩⟩).2.1 =
                  Option.none := by
              simpa [RunPages, QueryResultSet, hpf] using h
            exact ih nm bd tm tot mss _ h' j hjr

lemma runPages_fail (f : Fetch) :
    ∀ (pre : List Nat) (k : Nat) (post : List Nat) (nm : String) (bd : Int) (tm : String)
      (tot mss : Int) (sets : List Set) (e : GoErr),
      (∀ i ∈ pre, (PageFetch f bd mss tm i).2 = Option.none) →
      (PageFetch f bd mss tm k).2 = Option.some e →
      RunPages f (pre ++ k :: post) ⟨nm, bd, tm, ⟨tot, mss, sets⟩⟩ =
        (⟨nm, bd, tm, ⟨tot, mss, sets ++ PageSets f bd mss tm pre⟩⟩,
          Option.some e, PageReqs bd mss tm (pre ++ [k])) := by
  intro pre
  induction pre with
  | nil =>
      intro k post nm bd tm tot mss sets e _ hk
      simp [RunPages, QueryResultSet, hk, PageSets, PageReqs]
  | cons i rest ih =>
      intro k post nm bd tm tot mss sets e h hk
      have hi : (PageFetch f bd mss tm i).2 = Option.none :=
        h i (List.mem_cons_self i rest)
      have hrest : ∀ j ∈ rest, (PageFetch f bd mss tm j).2 = Option.none :=
        fun j hj => h j (List.mem_cons_of_mem i hj)
      have step := ih k post nm bd tm tot mss (sets ++ [(PageFetch f bd mss tm i).1]) e hrest hk
      simp only [List.cons_append, RunPages, QueryResultSet, hi, List.append_eq]
      rw [step]
      simp [PageSets, PageReqs]

lemma matchKey_esearch : matchKey "esearchresult" "esearchresult" = true := rfl

lemma matchKey_count_idlist : matchKey "count" "idlist" = false := rfl

lemma matchKey_idlist : matchKey "idlist" "idlist" = true := rfl

lemma decodeElem_str (s : String) : decodeElem (Json.str s) = s := rfl

lemma elemBad_str (s : String) : elemBad (Json.str s) = false := rfl

lemma any_const_false (xs : List String) : (xs.any fun _ => false) = false := by
  induction xs with
  | nil => rfl
  | cons x xs ih => simp [List.any_cons, ih]

lemma range_decomp {k c : Nat} (hk : k < c) :
    List.range c =
      List.range k ++ k :: (List.range (c - (k + 1))).map (fun x => k + 1 + x) := by
  have h1 : c = (k + 1) + (c - (k + 1)) := by omega
  calc
    List.range c = List.range ((k + 1) + (c - (k + 1))) := by rw [← h1]
    _ = List.range (k + 1) ++ (List.range (c - (k + 1))).map (fun x => (k + 1) + x) :=
        List.range_add _ _
    _ = (List.range k ++ [k]) ++ (List.range (c - (k + 1))).map (fun x => (k + 1) + x) := by
        rw [List.range_succ]
    _ = List.range k ++ k :: (List.range (c - (k + 1))).map (fun x => k + 1 + x) := by
        simp [List.append_assoc]

/-! ### Claim theorems -/

/-- C1, counterexample.  `NumSets` is computed with float64 `math.Ceil`, not
exact integer arithmetic: at total = 2^53 + 1 and page size 1 the
int-to-float conversion rounds the total down to 2^53 (ties to even), so the
returned page count is 2^53 while the exact ceiling is 2^53 + 1. -/
theorem c1_counterexample :
    NumSets (2 ^ 53 + 1) 1 = 2 ^ 53 ∧
    Int.ofNat (ceilNat (2 ^ 53 + 1) 1) = 2 ^ 53 + 1 ∧
    NumSets (2 ^ 53 + 1) 1 ≠ Int.ofNat (ceilNat (2 ^ 53 + 1) 1) :=
  ⟨by decide, by decide, by decide⟩

/-- C1, amended.  At every boundary value listed by the specification the
float64 computation agrees with the exact integer ceiling:
(3000,1000) -> 3, (2091,50) -> 42, (0,1000) -> 0, (1000,1000) -> 1,
(1001,1000) -> 2. -/
theorem c1_amended :
    (NumSets 3000 1000 = Int.ofNat (ceilNat 3000 1000) ∧ NumSets 3000 1000 = 3) ∧
    (NumSets 2091 50 = Int.ofNat (ceilNat 2091 50) ∧ NumSets 2091 50 = 42) ∧
    (NumSets 0 1000 = Int.ofNat (ceilNat 0 1000) ∧ NumSets 0 1000 = 0) ∧
    (NumSets 1000 1000 = Int.ofNat (ceilNat 1000 1000) ∧ NumSets 1000 1000 = 1) ∧
    (NumSets 1001 1000 = Int.ofNat (ceilNat 1001 1000) ∧ NumSets 1001 1000 = 2) :=
  ⟨⟨by decide, by decide⟩, ⟨by decide, by decide⟩, ⟨by decide, by decide⟩,
    ⟨by decide, by decide⟩, ⟨by decide, by decide⟩⟩

/-- C3, counterexample.  The count string "-5" is not parseable as a
non-negative integer, yet `ResultsCount` succeeds and returns -5 with a nil
error, because `strconv.Atoi` accepts a sign. -/
theorem c3_counterexample :
    ResultsCount (Option.some (cntPayload "-5")) = (-5, Option.none) ∧
    atoi "-5" = Option.some (-5) :=
  ⟨rfl, rfl⟩

/-- C3, amended.  `ResultsCount` fails (with zero count) on a payload that is
not well-formed or has a mistyped field, and fails when the count field is
absent or not parseable by `strconv.Atoi` as a signed 64-bit integer;
otherwise it returns the parsed integer, which may be negative.  A count of
0 is a valid non-error result, the count returned alongside any error is 0,
and a payload missing the result wrapper yields an error with count 0. -/
theorem c3_amended :
    ∀ (p : Option Json) (j : Json),
      ((ResultsCount p).2 = Option.none ∨ (ResultsCount p).1 = 0) ∧
      ResultsCount Option.none = (0, Option.some GoErr.unmarshal) ∧
      ResultsCount (Option.some (cntPayload "2091")) = (2091, Option.none) ∧
      ResultsCount (Option.some (cntPayload "0")) = (0, Option.none) ∧
      ResultsCount (Option.some (Json.obj [])) = (0, Option.some GoErr.atoi) ∧
      ResultsCount (Option.some j) =
        (if (decodeCountStruct j).2 then (0, Option.some GoErr.unmarshal)
         else
           match atoi (decodeCountStruct j).1 with
           | Option.none => (0, Option.some GoErr.atoi)
           | Option.some v => (v, Option.none)) := by
  intro p j
  refine ⟨?_, rfl, rfl, rfl, rfl, rfl⟩
  cases p with
  | none => exact Or.inr rfl
  | some j' =>
      show (if (decodeCountStruct j').2 then ((0 : Int), Option.some GoErr.unmarshal)
        else
          match atoi (decodeCountStruct j').1 with
          | Option.none => (0, Option.some GoErr.atoi)
          | Option.some v => (v, Option.none)).2 = Option.none ∨
        (if (decodeCountStruct j').2 then ((0 : Int), Option.some GoErr.unmarshal)
        else
          match atoi (decodeCountStruct j').1 with
          | Option.none => (0, Option.some GoErr.atoi)
          | Option.some v => (v, Option.none)).1 = 0
      by_cases hd : (decodeCountStruct j').2
      · simp [hd]
      · cases h : atoi (decodeCountStruct j').1 with
        | none => simp [hd, h]
        | some v => simp [hd, h]

/-- C4, counterexample.  A well-formed payload in which the result wrapper is
absent (here the empty object) does not make `ResultsSetIDs` fail: decoding
succeeds with the zero value, so the function returns an empty list and a
nil error, where the claim demands a MalformedResponse failure. -/
theorem c4_counterexample :
    ResultsSetIDs (Option.some (Json.obj [])) = ([], Option.none) :=
  rfl

/-- C4, amended.  `ResultsSetIDs` fails with a MalformedResponse error only
if the payload is not well-formed or a present wrapper or identifier-list
field has the wrong type: the first conjunct characterizes the result on
every payload — the error occurs exactly when the payload is not well-formed
JSON or the decode flagged a mistyped field, and otherwise the decoded list
is returned without error — and the second shows every failure is of the
MalformedResponse (unmarshal) kind and carries an empty list.  A well-formed
payload with the wrapper absent, or with the wrapper present but the
identifier-list field absent (for any count string, the shape of a count
response), yields an empty list with no error, and an empty identifier list
in a well-formed payload is likewise a valid non-error result. -/
theorem c4_amended :
    ∀ (p : Option Json) (n : Int) (c : String),
      ResultsSetIDs p =
        (match p with
         | Option.none => ([], Option.some GoErr.unmarshal)
         | Option.some j =>
             if (decodeIDsStruct j).2 then ([], Option.some GoErr.unmarshal)
             else ((decodeIDsStruct j).1, Option.none)) ∧
      ((ResultsSetIDs p).2 = Option.none ∨
        ResultsSetIDs p = ([], Option.some GoErr.unmarshal)) ∧
      ResultsSetIDs Option.none = ([], Option.some GoErr.unmarshal) ∧
      ResultsSetIDs (Option.some (Json.num n)) = ([], Option.some GoErr.unmarshal) ∧
      ResultsSetIDs (Option.some (Json.obj [("esearchresult", Json.num n)])) =
        ([], Option.some GoErr.unmarshal) ∧
      ResultsSetIDs (Option.some (Json.obj [("esearchresult",
        Json.obj [("idlist", Json.num n)])])) = ([], Option.some GoErr.unmarshal) ∧
      ResultsSetIDs (Option.some (cntPayload c)) = ([], Option.none) ∧
      ResultsSetIDs (Option.some (idsPayload c [])) = ([], Option.none) ∧
      ResultsSetIDs (Option.some (Json.obj [])) = ([], Option.none) := by
  intro p n c
  refine ⟨?_, ?_, rfl, rfl, rfl, rfl, rfl, rfl, rfl⟩
  · cases p with
    | none => rfl
    | some j => rfl
  · cases p with
    | none => exact Or.inr rfl
    | some j =>
        by_cases hd : (decodeIDsStruct j).2
        · exact Or.inr (by simp [ResultsSetIDs, hd])
        · exact Or.inl (by simp [ResultsSetIDs, hd])

/-- C5.  On a well-formed payload whose identifier list holds the strings
`xs`, `ResultsSetIDs` returns exactly `xs`: the same number of identifiers,
in exactly the order present in the source payload. -/
theorem c5_order_preserved :
    ∀ (c : String) (xs : List String),
      ResultsSetIDs (Option.some (idsPayload c xs)) = (xs, Option.none) ∧
      (ResultsSetIDs (Option.some (idsPayload c xs))).1.length = xs.length := by
  intro c xs
  have h : ResultsSetIDs (Option.some (idsPayload c xs)) = (xs, Option.none) := by
    simp only [ResultsSetIDs, idsPayload, decodeIDsStruct, decodeIDsInner,
      List.foldl_cons, List.foldl_nil, matchKey_esearch, matchKey_count_idlist,
      matchKey_idlist, if_true, if_false, Bool.false_or]
    simp [List.map_map, Function.comp, decodeElem_str, elemBad_str, List.any_map,
      any_const_false]
    rw [show decodeElem ∘ Json.str = id from funext fun s => decodeElem_str s]
    exact List.map_id xs
  exact ⟨h, by rw [h]⟩

/-- C9, counterexample.  On a search holding a previously decoded total of
42, a second `QueryResultTotal` whose body fails to decode resets Total to 0
instead of keeping the last successfully decoded value; the page sets are
preserved. -/
theorem c9_counterexample :
    ps42.Result.Total = 42 ∧
    (QueryResultTotal badFetch ps42).1.Result.Total = 0 ∧
    (QueryResultTotal badFetch ps42).2.1 = Option.some GoErr.unmarshal ∧
    (QueryResultTotal badFetch ps42).1.Result.Sets = ps42.Result.Sets :=
  ⟨rfl, rfl, rfl, rfl⟩

/-- C9, amended.  A repeated `QueryResultTotal` is permitted and modifies
only Total: Name, BackDays, Term, MaxSetSize and the previously fetched Sets
are never altered.  On a successful fetch the newly decoded count wins (the
count `ResultsCount` returns, 0 when decoding fails); on a transport failure
Total is left unchanged. -/
theorem c9_amended :
    ∀ (f : Fetch) (ps : Search),
      (QueryResultTotal f ps).1.Name = ps.Name ∧
      (QueryResultTotal f ps).1.BackDays = ps.BackDays ∧
      (QueryResultTotal f ps).1.Term = ps.Term ∧
      (QueryResultTotal f ps).1.Result.MaxSetSize = ps.Result.MaxSetSize ∧
      (QueryResultTotal f ps).1.Result.Sets = ps.Result.Sets ∧
      (QueryResultTotal f ps).1.Result.Total =
        (match f (Request.count ps.BackDays ps.Term) with
         | Except.error _ => ps.Result.Total
         | Except.ok body => (ResultsCount body).1) := by
  intro f ps
  cases h : f (Request.count ps.BackDays ps.Term) with
  | error e => rw [qrt_err f ps e h]; simp [h]
  | ok body => rw [qrt_ok f ps body h]; simp [h]

/-- C10.  `QueryResultSet` never mutates the Search: the receiver is returned
unchanged whether the page fetch succeeds or fails, the decoded page is its
result value computed from the BackDays, MaxSetSize and Term fields it
reads, and the request it issues carries start offset `setIndex * MaxSetSize`;
accumulation into Sets happens only inside `Query`'s loop. -/
theorem c10_page_frame :
    ∀ (f : Fetch) (ps : Search) (i : Nat),
      (QueryResultSet f ps i).1 = ps ∧
      (QueryResultSet f ps i).2.1 =
        PageFetch f ps.BackDays ps.Result.MaxSetSize ps.Term i ∧
      (QueryResultSet f ps i).2.2 =
        Request.page ps.BackDays ((i : Int) * ps.Result.MaxSetSize)
          ps.Result.MaxSetSize ps.Term :=
  fun _ _ _ => ⟨rfl, rfl, rfl⟩

/-- C2.  On a fully successful run, `Query` first issues the count request,
then exactly `NumSets` page requests for indices 0, 1, ... in increasing
order, page `i` at start offset `i * MaxSetSize`, and appends each decoded
page to Sets in that order. -/
theorem c2_sequencing :
    ∀ (f : Fetch) (ps : Search),
      (Query f ps).2.1 = Option.none →
      (Query f ps).2.2 =
        Request.count ps.BackDays ps.Term ::
          PageReqs ps.BackDays ps.Result.MaxSetSize ps.Term
            (List.range
              (NumSets (QueryResultTotal f ps).1.Result.Total ps.Result.MaxSetSize).toNat) ∧
      (Query f ps).1.Result.Sets =
        ps.Result.Sets ++
          PageSets f ps.BackDays ps.Result.MaxSetSize ps.Term
            (List.range
              (NumSets (QueryResultTotal f ps).1.Result.Total ps.Result.MaxSetSize).toNat) := by
  intro f ps h
  obtain ⟨nm, bd, tm, ⟨tot, mss, sets⟩⟩ := ps
  cases hf : f (Request.count bd tm) with
  | error e => simp [Query, QueryResultTotal, hf] at h
  | ok body =>
      cases hrc : (ResultsCount body).2 with
      | some e => simp [Query, QueryResultTotal, hf, hrc] at h
      | none =>
          simp only [Query, QueryResultTotal, hf, hrc] at h ⊢
          have hall := runPages_none f
            (List.range (NumSets (ResultsCount body).1 mss).toNat)
            nm bd tm (ResultsCount body).1 mss sets h
          rw [runPages_ok f (List.range (NumSets (ResultsCount body).1 mss).toNat)
            nm bd tm (ResultsCount body).1 mss sets hall]
          simp

/-- C2, witness at a concrete service double: total 3 with page size 2 issues
the count request and then page requests at offsets 0 and 2 in order, the
decoded pages being appended in that order. -/
theorem c2_sequencing_witness :
    (Query fetchW sW).2.1 = Option.none ∧
    ((Query fetchW sW).2.2 =
      Request.count sW.BackDays sW.Term ::
        PageReqs sW.BackDays sW.Result.MaxSetSize sW.Term
          (List.range
            (NumSets (QueryResultTotal fetchW sW).1.Result.Total sW.Result.MaxSetSize).toNat) ∧
    (Query fetchW sW).1.Result.Sets =
      sW.Result.Sets ++
        PageSets fetchW sW.BackDays sW.Result.MaxSetSize sW.Term
          (List.range
            (NumSets (QueryResultTotal fetchW sW).1.Result.Total sW.Result.MaxSetSize).toNat)) :=
  ⟨rfl, c2_sequencing fetchW sW rfl⟩

/-- C6.  When the count query decodes a total of 0, `Query` performs the
count request, issues no page requests, and completes successfully with an
empty page list. -/
theorem c6_zero_total :
    ∀ (f : Fetch) (ps : Search),
      ps.Result.Sets = [] →
      0 < ps.Result.MaxSetSize →
      (QueryResultTotal f ps).2.1 = Option.none →
      (QueryResultTotal f ps).1.Result.Total = 0 →
      (Query f ps).2.1 = Option.none ∧
      (Query f ps).2.2 = [Request.count ps.BackDays ps.Term] ∧
      (Query f ps).1.Result.Sets = [] := by
  intro f ps hs hm he h0
  obtain ⟨nm, bd, tm, ⟨tot, mss, sets⟩⟩ := ps
  simp only at hs
  cases hf : f (Request.count bd tm) with
  | error e => rw [qrt_err f _ e hf] at he; cases he
  | ok body =>
      simp only [QueryResultTotal, hf] at he h0
      simp only [Query, QueryResultTotal, hf, he, h0, hs, numSets_zero]
      simp [RunPages]

/-- C6, witness: a service double reporting zero matches leads to a
successful run, a trace of just the count request, and no pages. -/
theorem c6_zero_total_witness :
    (s0.Result.Sets = [] ∧ 0 < s0.Result.MaxSetSize ∧
      (QueryResultTotal fetch0 s0).2.1 = Option.none ∧
      (QueryResultTotal fetch0 s0).1.Result.Total = 0) ∧
    ((Query fetch0 s0).2.1 = Option.none ∧
      (Query fetch0 s0).2.2 = [Request.count s0.BackDays s0.Term] ∧
      (Query fetch0 s0).1.Result.Sets = []) :=
  ⟨⟨rfl, by decide, rfl, rfl⟩, c6_zero_total fetch0 s0 rfl (by decide) rfl rfl⟩

/-- C7.  If the pages at indices below `k` succeed and the page query at
index `k` fails, `Query` surfaces that failure, leaves exactly the `k`
successfully retrieved pages in Sets, and its trace stops at the request for
index `k`: no index beyond `k` is attempted. -/
theorem c7_abort :
    ∀ (f : Fetch) (ps : Search) (k : Nat) (e : GoErr),
      (QueryResultTotal f ps).2.1 = Option.none →
      k < (NumSets (QueryResultTotal f ps).1.Result.Total ps.Result.MaxSetSize).toNat →
      (∀ i, i < k → (PageFetch f ps.BackDays ps.Result.MaxSetSize ps.Term i).2 = Option.none) →
      (PageFetch f ps.BackDays ps.Result.MaxSetSize ps.Term k).2 = Option.some e →
      (Query f ps).2.1 = Option.some e ∧
      (Query f ps).1.Result.Sets =
        ps.Result.Sets ++
          PageSets f ps.BackDays ps.Result.MaxSetSize ps.Term (List.range k) ∧
      (Query f ps).1.Result.Sets.length = ps.Result.Sets.length + k ∧
      (Query f ps).2.2 =
        Request.count ps.BackDays ps.Term ::
          PageReqs ps.BackDays ps.Result.MaxSetSize ps.Term (List.range (k + 1)) := by
  intro f ps k e hTot hk hOk hFail
  obtain ⟨nm, bd, tm, ⟨tot, mss, sets⟩⟩ := ps
  simp only at hOk hFail hk
  cases hf : f (Request.count bd tm) with
  | error er => rw [qrt_err f _ er hf] at hTot; cases hTot
  | ok body =>
      simp only [QueryResultTotal, hf] at hTot hk
      have hpre : ∀ i ∈ List.range k, (PageFetch f bd mss tm i).2 = Option.none :=
        fun i hi => hOk i (List.mem_range.mp hi)
      have hsplit := range_decomp hk
      simp only [Query, QueryResultTotal, hf, hTot, hsplit]
      rw [runPages_fail f (List.range k) k _ nm bd tm (ResultsCount body).1 mss sets e
        hpre hFail]
      refine ⟨rfl, rfl, ?_, ?_⟩
      · simp [PageSets]
      · rw [show List.range k ++ [k] = List.range (k + 1) from (List.range_succ k).symm]
        rfl

/-- C7, witness at a concrete service double: total 3 with page size 1, page
0 succeeding and page 1 failing, leaves exactly one page, surfaces the
failure, and never requests index 2. -/
theorem c7_abort_witness :
    ((QueryResultTotal fetch7 s7).2.1 = Option.none ∧
      1 < (NumSets (QueryResultTotal fetch7 s7).1.Result.Total s7.Result.MaxSetSize).toNat ∧
      (∀ i, i < 1 → (PageFetch fetch7 s7.BackDays s7.Result.MaxSetSize s7.Term i).2 =
        Option.none) ∧
      (PageFetch fetch7 s7.BackDays s7.Result.MaxSetSize s7.Term 1).2 =
        Option.some GoErr.transport) ∧
    ((Query fetch7 s7).2.1 = Option.some GoErr.transport ∧
      (Query fetch7 s7).1.Result.Sets =
        s7.Result.Sets ++
          PageSets fetch7 s7.BackDays s7.Result.MaxSetSize s7.Term (List.range 1) ∧
      (Query fetch7 s7).1.Result.Sets.length = s7.Result.Sets.length + 1 ∧
      (Query fetch7 s7).2.2 =
        Request.count s7.BackDays s7.Term ::
          PageReqs s7.BackDays s7.Result.MaxSetSize s7.Term (List.range (1 + 1))) :=
  ⟨⟨rfl, by decide, by decide, rfl⟩,
    c7_abort fetch7 s7 1 GoErr.transport rfl (by decide) (by decide) rfl⟩

/-- C8.  Pages are empty until the total has been set: a fresh search has no
pages and the count query never touches Sets.  After a fully successful
`Query` starting from an empty page list, the number of accumulated pages
equals the page count computed from the final Total and MaxSetSize. -/
theorem c8_invariant :
    ∀ (f : Fetch) (ps : Search),
      ps.Result.Sets = [] →
      0 < ps.Result.MaxSetSize →
      0 ≤ (QueryResultTotal f ps).1.Result.Total →
      (Query f ps).2.1 = Option.none →
      (∀ q : String, (NewSearch q).Result.Sets = []) ∧
      (QueryResultTotal f ps).1.Result.Sets = [] ∧
      ((Query f ps).1.Result.Sets.length : Int) =
        NumSets (Query f ps).1.Result.Total (Query f ps).1.Result.MaxSetSize := by
  intro f ps hs hm ht h
  obtain ⟨nm, bd, tm, ⟨tot, mss, sets⟩⟩ := ps
  simp only at hs hm
  refine ⟨fun q => rfl, ?_, ?_⟩
  · rw [qrt_sets]; exact hs
  cases hf : f (Request.count bd tm) with
  | error e => simp [Query, QueryResultTotal, hf] at h
  | ok body =>
      cases hrc : (ResultsCount body).2 with
      | some e => simp [Query, QueryResultTotal, hf, hrc] at h
      | none =>
          simp only [QueryResultTotal, hf] at ht
          simp only [Query, QueryResultTotal, hf, hrc] at h ⊢
          have hall := runPages_none f
            (List.range (NumSets (ResultsCount body).1 mss).toNat)
            nm bd tm (ResultsCount body).1 mss sets h
          rw [runPages_ok f (List.range (NumSets (ResultsCount body).1 mss).toNat)
            nm bd tm (ResultsCount body).1 mss sets hall]
          simp only [hs, List.nil_append, PageSets, List.length_map, List.length_range]
          exact Int.toNat_of_nonneg (numSets_nonneg ht (le_of_lt hm))

/-- C8, witness: a zero-match run from a fresh search ends with zero pages,
matching the computed page count. -/
theorem c8_invariant_witness :
    (s0.Result.Sets = [] ∧ 0 < s0.Result.MaxSetSize ∧
      0 ≤ (QueryResultTotal fetch0 s0).1.Result.Total ∧
      (Query fetch0 s0).2.1 = Option.none) ∧
    ((∀ q : String, (NewSearch q).Result.Sets = []) ∧
      (QueryResultTotal fetch0 s0).1.Result.Sets = [] ∧
      ((Query fetch0 s0).1.Result.Sets.length : Int) =
        NumSets (Query fetch0 s0).1.Result.Total (Query fetch0 s0).1.Result.MaxSetSize) :=
  ⟨⟨rfl, by decide, by decide, rfl⟩,
    c8_invariant fetch0 s0 rfl (by decide) (by decide) rfl⟩

end Pubmed
